import Mathlib

/-!
Verification of the calendar-assistant bot (`bot.py`) against its
natural-language specification.

The program is a thin orchestration layer around external services
(Telegram transport, speech recognition, Gemini classification, Google
Calendar).  We embed the repository's own control flow faithfully and
model each external call as an explicit outcome parameter: a call that
the Python code may see raise an exception is an `Except String α`
value (`.error e` standing for a raised exception `e`), and a pure
reply from a service is a plain function argument.  Time is modelled in
seconds as `Nat` (one day = 86400), and the local staging directory as
a characteristic function `FS : String → Bool`.
-/

namespace CalendarBot

/-- The staged-file store: `fs p = true` iff a file exists at path `p`. -/
def FS : Type := String → Bool

/-- Mark path `p` as existing (a file was written there). -/
def setFile (p : String) (fs : FS) : FS :=
  fun q => if q = p then true else fs q

/-- `os.remove`: deletes the file at `p`; raises (returns `.error`) when the
file does not exist, exactly like Python's `FileNotFoundError`. -/
def os_remove (p : String) (fs : FS) : Except String FS :=
  if fs p then .ok (fun q => if q = p then false else fs q)
  else .error "FileNotFoundError"

/-- The four intents of the dispatch (`bot.py` lines 145-167): the three
action labels plus the fall-through `unknown`. -/
inductive Intent where
  | list_events
  | create_event
  | delete_event
  | unknown
deriving DecidableEq, Repr

/-- The if/elif/else chain of `process_intent_and_perform_action`
(`bot.py` lines 145-167) compares the intent string with the three action
labels in order and falls through to the unsupported branch otherwise. -/
def classifyIntent (s : String) : Intent :=
  if s = "list_events" then .list_events
  else if s = "create_event" then .create_event
  else if s = "delete_event" then .delete_event
  else .unknown

/-- Python's `str.lower()`: lower-case every character. -/
def pyLower (s : String) : String :=
  ⟨s.data.map Char.toLower⟩

/-- Python's `str.strip()`: drop whitespace from both ends. -/
def pyStrip (s : String) : String :=
  ⟨((s.data.dropWhile Char.isWhitespace).reverse.dropWhile
      Char.isWhitespace).reverse⟩

/-- The fixed prompt built by `analyze_intent` (`bot.py` line 63); the
user text is interpolated at the end. -/
def intentPrompt (text : String) : String :=
  "Analyze the intent of the following text and respond with one of the following: \x27list_events\x27, \x27create_event\x27, \x27delete_event\x27, or \x27unknown\x27. Text: " ++ text

/-- `analyze_intent` (`bot.py` lines 62-65): sends the prompt to the
generative model (`genReply`, which may raise) and returns
`response.text.strip().lower()`.  Note the raw string is returned; no
mapping into the enumerated set happens here. -/
def analyze_intent (genReply : String → Except String String)
    (text : String) : Except String String :=
  match genReply (intentPrompt text) with
  | .error e => .error e
  | .ok r => .ok (pyLower (pyStrip r))

/-- A Google Calendar event record as the bot reads it: `startTime` is the
chronological start instant (seconds, used by the remote service for
window filtering and ordering); `startDateTime` / `startDate` are the
`start.dateTime` and `start.date` fields of the returned JSON record. -/
structure GCalEvent where
  id : String
  summary : String
  startTime : Nat
  startDateTime : Option String
  startDate : Option String
deriving DecidableEq, Repr

/-- `event[\x27start\x27].get(\x27dateTime\x27, event[\x27start\x27].get(\x27date\x27))`
(`bot.py` line 151): the start dateTime, falling back to the all-day
date; Python renders a missing-both value `None` as the text "None". -/
def startDisplay (e : GCalEvent) : String :=
  match e.startDateTime with
  | some s => s
  | none =>
    match e.startDate with
    | some d => d
    | none => "None"

/-- The listing line `f"\x7bstart\x7d - \x7bevent[\x27summary\x27]\x7d"`
(`bot.py` line 152). -/
def fmtEvent (e : GCalEvent) : String :=
  startDisplay e ++ " - " ++ e.summary

/-- Calendar-side operations the pipeline can invoke, in invocation
order: `auth` is `authenticate_google_calendar()` (which may refresh and
persist credentials), the others are the three event operations. -/
inductive CalOp where
  | auth
  | list
  | insert
  | delete
deriving DecidableEq, Repr

/-- Outcomes of the external calls made during one pipeline run.  Each
field records what the corresponding remote call would do if reached:
`.error e` models the Python call raising exception `e`. -/
structure Env where
  genReply : String → Except String String
  auth : Except String Unit
  listResult : Except String (List GCalEvent)
  insertResult : Except String Unit
  deleteResult : Except String Unit

/-- Result of one `process_intent_and_perform_action` run: the replies it
sent, the calendar-side calls it attempted (in order), and whether it
returned normally or raised. -/
structure RunResult where
  replies : List String
  calOps : List CalOp
  outcome : Except String Unit
deriving Repr

/-- `process_intent_and_perform_action` (`bot.py` lines 141-167):
classify the text, authenticate the calendar service, then dispatch on
the intent string.  The create/delete branches use fixed placeholder
parameters in the source; here the corresponding insert/delete remote
calls are abstracted into their outcomes (`env.insertResult`,
`env.deleteResult`).  An exception at any step aborts the run and
propagates (`outcome = .error`). -/
def process_intent_and_perform_action (env : Env) (text : String) :
    RunResult :=
  match analyze_intent env.genReply text with
  | .error e => ⟨[], [], .error e⟩
  | .ok intentStr =>
    match env.auth with
    | .error e => ⟨[], [.auth], .error e⟩
    | .ok _ =>
      match classifyIntent intentStr with
      | .list_events =>
        match env.listResult with
        | .error e => ⟨[], [.auth, .list], .error e⟩
        | .ok events =>
          if events.isEmpty then
            ⟨["No events found for today."], [.auth, .list], .ok ()⟩
          else
            ⟨events.map fmtEvent, [.auth, .list], .ok ()⟩
      | .create_event =>
        match env.insertResult with
        | .error e => ⟨[], [.auth, .insert], .error e⟩
        | .ok _ =>
          ⟨["Event created successfully."], [.auth, .insert], .ok ()⟩
      | .delete_event =>
        match env.deleteResult with
        | .error e => ⟨[], [.auth, .delete], .error e⟩
        | .ok _ =>
          ⟨["Event deleted successfully."], [.auth, .delete], .ok ()⟩
      | .unknown =>
        ⟨["Unknown intent or action not supported."], [.auth], .ok ()⟩

/-- Result of one inbound-event handler run (`handle_text` /
`handle_voice`): all replies sent to the user in order, the calendar
calls attempted, and whether the handler itself raised. -/
structure HandleResult where
  replies : List String
  calOps : List CalOp
  outcome : Except String Unit
deriving Repr

/-- `handle_text` (`bot.py` lines 128-138): echo the received text, run
the intent pipeline, and catch any exception with the generic failure
reply.  The echo reply is sent before the pipeline runs, so it stands
even when the pipeline later raises; `except Exception` means the
handler itself never raises. -/
def handle_text (env : Env) (text : String) : HandleResult :=
  let echo := "Received Text: " ++ text
  let r := process_intent_and_perform_action env text
  match r.outcome with
  | .ok _ => ⟨echo :: r.replies, r.calOps, .ok ()⟩
  | .error _ =>
    ⟨(echo :: r.replies) ++
      ["An error occurred while processing your request."],
     r.calOps, .ok ()⟩

/-- The fixed single-message outcomes the pipeline can reply with. -/
def fixedOutcomeMsgs : List String :=
  ["No events found for today.", "Event created successfully.",
   "Event deleted successfully.", "Unknown intent or action not supported.",
   "An error occurred while processing your request."]

/-- The events the calendar list call would return in this run (empty
when that call would fail). -/
def eventsOf (env : Env) : List GCalEvent :=
  match env.listResult with
  | .ok es => es
  | .error _ => []

/-- Outcome of `recognizer.recognize_google(audio)`: recognized text, one
of the two expected recognition exceptions, or any other exception. -/
inductive RecOutcome where
  | recognized (text : String)
  | unknownValueError
  | requestError
  | otherError (e : String)
deriving DecidableEq, Repr

/-- `transcribe_audio` (`bot.py` lines 49-59).  `record` models the
`sr.AudioFile` / `recognizer.record(source)` decode step, which sits
BEFORE the try block, so its exceptions propagate; `recognize_google`
models the recognition call inside the try, whose
`sr.UnknownValueError` / `sr.RequestError` are converted to the two
placeholder strings while any other exception propagates. -/
def transcribe_audio {α : Type} (record : Except String α)
    (recognize_google : α → RecOutcome) : Except String String :=
  match record with
  | .error e => .error e
  | .ok audio =>
    match recognize_google audio with
    | .recognized t => .ok t
    | .unknownValueError => .ok "Could not understand audio"
    | .requestError => .ok "API unavailable"
    | .otherError e => .error e

/-- Path of the downloaded native voice container
(`os.path.join("voice_messages", f"...id.oga")`, `bot.py` line 103). -/
def ogaPath (uid : String) : String :=
  "voice_messages/" ++ uid ++ ".oga"

/-- Path of the decoded waveform file (`bot.py` line 107). -/
def wavPath (uid : String) : String :=
  "voice_messages/" ++ uid ++ ".wav"

/-- Outcomes of the voice-specific external steps of `handle_voice`:
which calls would raise, and whether a raising download/export still
left a file behind. -/
structure VoiceEnv where
  userId : String
  getFileOk : Bool
  downloadRaises : Bool
  downloadCreates : Bool
  convertRaises : Bool
  exportRaises : Bool
  exportCreates : Bool
  record : Except String Unit
  recognize : RecOutcome

/-- State of the try body of `handle_voice` when control reaches the
finally block: the two path variables (`none` = still `None`), the
staging store, the replies sent so far, the calendar calls attempted,
and the pending exception if the body raised. -/
structure VoiceBodyResult where
  filePath : Option String
  wavFilePath : Option String
  fs : FS
  replies : List String
  calOps : List CalOp
  raised : Option String

/-- The try body of `handle_voice` (`bot.py` lines 100-116): download the
voice file, convert it to WAV, transcribe, echo the transcription and run
the intent pipeline.  Each step may raise, leaving the path variables
and staging store exactly as Python would. -/
def handle_voice_body (env : Env) (v : VoiceEnv) (fs : FS) :
    VoiceBodyResult :=
  if v.getFileOk = false then
    ⟨none, none, fs, [], [], some "get_file failed"⟩
  else
    if v.downloadRaises then
      ⟨some (ogaPath v.userId), none,
       (if v.downloadCreates then setFile (ogaPath v.userId) fs else fs),
       [], [], some "download failed"⟩
    else
      let fs1 := setFile (ogaPath v.userId) fs
      if v.convertRaises then
        ⟨some (ogaPath v.userId), some (wavPath v.userId), fs1,
         [], [], some "audio conversion failed"⟩
      else if v.exportRaises then
        ⟨some (ogaPath v.userId), some (wavPath v.userId),
         (if v.exportCreates then setFile (wavPath v.userId) fs1 else fs1),
         [], [], some "export failed"⟩
      else
        let fs2 := setFile (wavPath v.userId) fs1
        match transcribe_audio v.record (fun _ => v.recognize) with
        | .error e =>
          ⟨some (ogaPath v.userId), some (wavPath v.userId), fs2,
           [], [], some e⟩
        | .ok text =>
          let r := process_intent_and_perform_action env text
          match r.outcome with
          | .ok _ =>
            ⟨some (ogaPath v.userId), some (wavPath v.userId), fs2,
             ("Transcribed Text: " ++ text) :: r.replies, r.calOps, none⟩
          | .error e =>
            ⟨some (ogaPath v.userId), some (wavPath v.userId), fs2,
             ("Transcribed Text: " ++ text) :: r.replies, r.calOps, some e⟩

/-- One guarded deletion of the finally block (`bot.py` lines 122-125):
`if path and os.path.exists(path): os.remove(path)`.  The `os.remove`
call can raise, but the guard only reaches it on an existing file. -/
def removeStagedFile (p : Option String) (fs : FS) : Except String FS :=
  match p with
  | none => .ok fs
  | some path => if fs path then os_remove path fs else .ok fs

/-- The whole finally block of `handle_voice`: remove the container
file, then the waveform file, each guarded. -/
def voiceCleanup (filePath wavFilePath : Option String) (fs : FS) :
    Except String FS :=
  match removeStagedFile filePath fs with
  | .error e => .error e
  | .ok fs1 => removeStagedFile wavFilePath fs1

/-- Replies of `handle_voice` as the user sees them: the body's replies,
plus the generic failure reply from the except clause when the body
raised. -/
def voiceReplies (b : VoiceBodyResult) : List String :=
  match b.raised with
  | none => b.replies
  | some _ => b.replies ++ ["An error occurred while processing your request."]

/-- Result of one `handle_voice` run. -/
structure VoiceResult where
  replies : List String
  calOps : List CalOp
  fs : FS
  outcome : Except String Unit

/-- `handle_voice` (`bot.py` lines 95-125): run the try body, append the
generic failure reply when it raised (except clause), then run the
finally-block cleanup.  An exception out of the finally block itself
would escape the handler (`outcome = .error`). -/
def handle_voice (env : Env) (v : VoiceEnv) (fs : FS) : VoiceResult :=
  match voiceCleanup (handle_voice_body env v fs).filePath
      (handle_voice_body env v fs).wavFilePath
      (handle_voice_body env v fs).fs with
  | .ok fsFinal =>
    ⟨voiceReplies (handle_voice_body env v fs),
     (handle_voice_body env v fs).calOps, fsFinal, .ok ()⟩
  | .error e =>
    ⟨voiceReplies (handle_voice_body env v fs),
     (handle_voice_body env v fs).calOps,
     (handle_voice_body env v fs).fs, .error e⟩

/-- The query record sent by `list_today_events` to
`service.events().list(...)`.  Time instants are in seconds. -/
structure ListQuery where
  calendarId : String
  timeMin : Nat
  timeMax : Nat
  singleEvents : Bool
  orderBy : String
deriving DecidableEq, Repr

/-- `timedelta(days=1)` in seconds. -/
def daySeconds : Nat := 86400

/-- The query built by `list_today_events` (`bot.py` lines 69-71):
`timeMin = now`, `timeMax = now + 1 day`, `singleEvents=True`,
`orderBy=\x27startTime\x27` on the primary calendar. -/
def todayQuery (now : Nat) : ListQuery :=
  { calendarId := "primary", timeMin := now, timeMax := now + daySeconds,
    singleEvents := true, orderBy := "startTime" }

/-- `list_today_events` (`bot.py` lines 68-73): issue the window query
and return the items. -/
def list_today_events (serviceList : ListQuery → List GCalEvent)
    (now : Nat) : List GCalEvent :=
  serviceList (todayQuery now)

/-- Modelled from the spec: the remote calendar list API (an external
collaborator, not code of this repository) honours the window query —
every returned event starts inside [timeMin, timeMax) and the result is
ordered non-decreasing by start time. -/
def ListContract (serviceList : ListQuery → List GCalEvent) : Prop :=
  ∀ q : ListQuery,
    (∀ e ∈ serviceList q, q.timeMin ≤ e.startTime ∧ e.startTime < q.timeMax) ∧
    List.Chain' (fun a b => a.startTime ≤ b.startTime) (serviceList q)

/-- One timed endpoint of the insert request body:
`\x7b\x27dateTime\x27: ..., \x27timeZone\x27: \x27UTC\x27\x7d`. -/
structure TimeField where
  dateTime : String
  timeZone : String
deriving DecidableEq, Repr

/-- An attendee entry `\x7b\x27email\x27: email\x7d` of the insert body. -/
structure Attendee where
  email : String
deriving DecidableEq, Repr

/-- The request body built by `create_event` (`bot.py` lines 77-82). -/
structure EventBody where
  summary : String
  start : TimeField
  «end» : TimeField
  attendees : List Attendee
deriving DecidableEq, Repr

/-- What one `create_event` call did: the body it sent to
`events().insert`, the record the service returned, and the Python
function's own return value. -/
structure CreateResult where
  requestBody : EventBody
  inserted : GCalEvent
  returned : Option GCalEvent
deriving DecidableEq, Repr

/-- `create_event` (`bot.py` lines 76-84): build the body (UTC timezone
on both endpoints; the attendee list comprehension runs only when
`attendees` is truthy, otherwise `[]`), issue the insert, log the link.
The Python function has no return statement, so its return value is
`None` (`returned := none`). -/
def create_event (insert : EventBody → GCalEvent)
    (summary start_time end_time : String)
    (attendees : Option (List String)) : CreateResult :=
  let event : EventBody :=
    { summary := summary
      start := { dateTime := start_time, timeZone := "UTC" }
      «end» := { dateTime := end_time, timeZone := "UTC" }
      attendees :=
        match attendees with
        | none => []
        | some l => if l.isEmpty then [] else l.map (fun e => ⟨e⟩) }
  let created := insert event
  { requestBody := event, inserted := created, returned := none }

/-- A concrete run environment where the classifier replies "hello"
(routed as unknown intent) and every calendar call would succeed. -/
def envUnknown : Env :=
  { genReply := fun _ => .ok "hello", auth := .ok (),
    listResult := .ok [], insertResult := .ok (), deleteResult := .ok () }

/-- A concrete event record used in witnesses. -/
def exampleInserted : GCalEvent :=
  { id := "e1", summary := "Meeting with Team", startTime := 3600,
    startDateTime := some "2026-10-12T10:00:00Z", startDate := none }

/-- A concrete all-day event record (no `start.dateTime`). -/
def exampleAllDay : GCalEvent :=
  { id := "e2", summary := "Conference", startTime := 7200,
    startDateTime := none, startDate := some "2026-10-12" }

/-- A concrete run environment whose calendar authentication call
raises. -/
def envAuthFail : Env :=
  { genReply := fun _ => .ok "list_events", auth := .error "auth failed",
    listResult := .ok [], insertResult := .ok (), deleteResult := .ok () }

/-- A concrete run environment where the classifier answers
"list_events" and the list call returns two events. -/
def envList : Env :=
  { genReply := fun _ => .ok "list_events", auth := .ok (),
    listResult := .ok [exampleInserted, exampleAllDay],
    insertResult := .ok (), deleteResult := .ok () }

/-- A concrete voice environment where every external step succeeds. -/
def exampleVoiceEnv : VoiceEnv :=
  { userId := "42", getFileOk := true, downloadRaises := false,
    downloadCreates := true, convertRaises := false, exportRaises := false,
    exportCreates := true, record := .ok (),
    recognize := .recognized "hello" }

/-- The empty staging store. -/
def emptyFS : FS := fun _ => false

end CalendarBot

namespace CalendarBot

/-- C3: any classifier reply that after strip+lowercase does not exactly
equal one of the three action labels is routed as the `unknown` intent,
so classification always lands in the enumerated set
\x7blist_events, create_event, delete_event, unknown\x7d. -/
theorem analyze_intent_unknown_fallback
    (genReply : String → Except String String) (text s : String)
    (hok : analyze_intent genReply text = .ok s)
    (h1 : s ≠ "list_events") (h2 : s ≠ "create_event")
    (h3 : s ≠ "delete_event") :
    classifyIntent s = .unknown := by
  simp only [classifyIntent, if_neg h1, if_neg h2, if_neg h3]

/-- Witness for C3: the verbose reply "I would list the events." is
trimmed, lowercased and then routed to `unknown`. -/
theorem analyze_intent_unknown_fallback_witness :
    classifyIntent (pyLower (pyStrip " I would list the events. ")) = .unknown := by
  apply analyze_intent_unknown_fallback
    (fun _ => .ok " I would list the events. ") "hi"
  · rfl
  · decide
  · decide
  · decide

/-- The guarded removal never raises: the existence guard protects the
`os.remove` call. -/
theorem removeStagedFile_ok (p : Option String) (fs : FS) :
    ∃ fs2, removeStagedFile p fs = .ok fs2 := by
  match p with
  | none => exact ⟨fs, rfl⟩
  | some path =>
    by_cases h : fs path = true
    · exact ⟨fun q => if q = path then false else fs q,
        by simp [removeStagedFile, h, os_remove]⟩
    · exact ⟨fs, by simp [removeStagedFile, h]⟩

/-- After a guarded removal at `path`, no file remains at `path`. -/
theorem removeStagedFile_absent (path : String) (fs fs2 : FS)
    (h : removeStagedFile (some path) fs = .ok fs2) : fs2 path = false := by
  by_cases hf : fs path = true
  · simp [removeStagedFile, hf, os_remove] at h
    subst h
    simp
  · simp [removeStagedFile, hf] at h
    subst h
    simpa using hf

/-- A guarded removal changes no path other than its own. -/
theorem removeStagedFile_some_other (path : String) (fs fs2 : FS)
    (q : String) (h : removeStagedFile (some path) fs = .ok fs2)
    (hq : q ≠ path) : fs2 q = fs q := by
  by_cases hf : fs path = true
  · simp [removeStagedFile, hf, os_remove] at h
    subst h
    simp [hq]
  · simp [removeStagedFile, hf] at h
    subst h
    rfl

/-- A guarded removal never creates a file: absent paths stay absent. -/
theorem removeStagedFile_mono (p : Option String) (fs fs2 : FS)
    (q : String) (h : removeStagedFile p fs = .ok fs2)
    (hq : fs q = false) : fs2 q = false := by
  match p with
  | none =>
    simp [removeStagedFile] at h
    subst h
    exact hq
  | some path =>
    by_cases hqp : q = path
    · subst hqp
      exact removeStagedFile_absent _ _ _ h
    · rw [removeStagedFile_some_other path fs fs2 q h hqp]
      exact hq

/-- A guarded removal at an absent path is a no-op. -/
theorem removeStagedFile_of_absent (path : String) (fs : FS)
    (h : fs path = false) : removeStagedFile (some path) fs = .ok fs := by
  simp [removeStagedFile, h]

/-- The two-file finally block never raises. -/
theorem voiceCleanup_ok (fp wp : Option String) (fs : FS) :
    ∃ fs2, voiceCleanup fp wp fs = .ok fs2 := by
  obtain ⟨fs1, h1⟩ := removeStagedFile_ok fp fs
  obtain ⟨fs2, h2⟩ := removeStagedFile_ok wp fs1
  exact ⟨fs2, by simp [voiceCleanup, h1, h2]⟩

/-- The container path and the waveform path never coincide. -/
theorem ogaPath_ne_wavPath (uid : String) : ogaPath uid ≠ wavPath uid := by
  intro h
  have hd := congrArg String.data h
  simp only [ogaPath, wavPath, String.data_append, List.append_assoc] at hd
  have h2 := List.append_cancel_left (List.append_cancel_left hd)
  exact absurd h2 (by decide)

/-- When the try body of `handle_voice` reaches the finally block, the
path variables and staging store are in one of three shapes: nothing
assigned and the store untouched; only the container path assigned and
at most the container file added; or both paths assigned. -/
theorem handle_voice_body_shape (env : Env) (v : VoiceEnv) (fs : FS) :
    ((handle_voice_body env v fs).filePath = none ∧
     (handle_voice_body env v fs).wavFilePath = none ∧
     (handle_voice_body env v fs).fs = fs) ∨
    ((handle_voice_body env v fs).filePath = some (ogaPath v.userId) ∧
     (handle_voice_body env v fs).wavFilePath = none ∧
     ∀ q, q ≠ ogaPath v.userId → (handle_voice_body env v fs).fs q = fs q) ∨
    ((handle_voice_body env v fs).filePath = some (ogaPath v.userId) ∧
     (handle_voice_body env v fs).wavFilePath = some (wavPath v.userId)) := by
  by_cases hgf : v.getFileOk = false
  · left
    simp [handle_voice_body, hgf]
  · have hgf' : v.getFileOk = true := by
      revert hgf; cases v.getFileOk <;> simp
    by_cases hd : v.downloadRaises
    · right; left
      refine ⟨by simp [handle_voice_body, hgf', hd],
              by simp [handle_voice_body, hgf', hd], ?_⟩
      intro q hq
      by_cases hc : v.downloadCreates <;>
        simp [handle_voice_body, hgf', hd, hc, setFile, hq]
    · right; right
      by_cases hc : v.convertRaises
      · constructor <;> simp [handle_voice_body, hgf', hd, hc]
      · by_cases hex : v.exportRaises
        · constructor <;> simp [handle_voice_body, hgf', hd, hc, hex]
        · cases ht : transcribe_audio v.record (fun _ => v.recognize) with
          | error e =>
            constructor <;> simp [handle_voice_body, hgf', hd, hc, hex, ht]
          | ok text =>
            cases ho : (process_intent_and_perform_action env text).outcome with
            | error e =>
              constructor <;>
                simp [handle_voice_body, hgf', hd, hc, hex, ht, ho]
            | ok u =>
              constructor <;>
                simp [handle_voice_body, hgf', hd, hc, hex, ht, ho]

/-- Every reply the intent pipeline sends is one of the fixed outcome
messages or a formatted listing line of an event the list call
returned. -/
theorem process_replies_allowed (env : Env) (text : String) :
    ∀ m ∈ (process_intent_and_perform_action env text).replies,
      m ∈ fixedOutcomeMsgs ∨ ∃ e ∈ eventsOf env, m = fmtEvent e := by
  intro m hm
  cases hg : env.genReply (intentPrompt text) with
  | error e =>
    simp [process_intent_and_perform_action, analyze_intent, hg] at hm
  | ok r =>
    cases ha : env.auth with
    | error e =>
      simp [process_intent_and_perform_action, analyze_intent, hg, ha] at hm
    | ok u =>
      cases hi : classifyIntent (pyLower (pyStrip r)) with
      | list_events =>
        cases hl : env.listResult with
        | error e =>
          simp [process_intent_and_perform_action, analyze_intent,
                hg, ha, hi, hl] at hm
        | ok es =>
          cases hes : es.isEmpty with
          | true =>
            simp [process_intent_and_perform_action, analyze_intent,
                  hg, ha, hi, hl, hes] at hm
            simp [hm, fixedOutcomeMsgs]
          | false =>
            simp [process_intent_and_perform_action, analyze_intent,
                  hg, ha, hi, hl, hes] at hm
            obtain ⟨e, he, hme⟩ := hm
            exact Or.inr ⟨e, by simp [eventsOf, hl, he], hme.symm⟩
      | create_event =>
        cases hins : env.insertResult with
        | error e =>
          simp [process_intent_and_perform_action, analyze_intent,
                hg, ha, hi, hins] at hm
        | ok u2 =>
          simp [process_intent_and_perform_action, analyze_intent,
                hg, ha, hi, hins] at hm
          simp [hm, fixedOutcomeMsgs]
      | delete_event =>
        cases hdel : env.deleteResult with
        | error e =>
          simp [process_intent_and_perform_action, analyze_intent,
                hg, ha, hi, hdel] at hm
        | ok u2 =>
          simp [process_intent_and_perform_action, analyze_intent,
                hg, ha, hi, hdel] at hm
          simp [hm, fixedOutcomeMsgs]
      | unknown =>
        simp [process_intent_and_perform_action, analyze_intent,
              hg, ha, hi] at hm
        simp [hm, fixedOutcomeMsgs]

/-- When the intent pipeline returns normally it has sent at least one
reply. -/
theorem process_ok_replies_ne_nil (env : Env) (text : String)
    (h : (process_intent_and_perform_action env text).outcome = .ok ()) :
    (process_intent_and_perform_action env text).replies ≠ [] := by
  cases hg : env.genReply (intentPrompt text) with
  | error e =>
    simp [process_intent_and_perform_action, analyze_intent, hg] at h
  | ok r =>
    cases ha : env.auth with
    | error e =>
      simp [process_intent_and_perform_action, analyze_intent, hg, ha] at h
    | ok u =>
      cases hi : classifyIntent (pyLower (pyStrip r)) with
      | list_events =>
        cases hl : env.listResult with
        | error e =>
          simp [process_intent_and_perform_action, analyze_intent,
                hg, ha, hi, hl] at h
        | ok es =>
          cases hes : es.isEmpty with
          | true =>
            simp [process_intent_and_perform_action, analyze_intent,
                  hg, ha, hi, hl, hes]
          | false =>
            simp [process_intent_and_perform_action, analyze_intent,
                  hg, ha, hi, hl, hes]
            simpa using hes
      | create_event =>
        cases hins : env.insertResult with
        | error e =>
          simp [process_intent_and_perform_action, analyze_intent,
                hg, ha, hi, hins] at h
        | ok u2 =>
          simp [process_intent_and_perform_action, analyze_intent,
                hg, ha, hi, hins]
      | delete_event =>
        cases hdel : env.deleteResult with
        | error e =>
          simp [process_intent_and_perform_action, analyze_intent,
                hg, ha, hi, hdel] at h
        | ok u2 =>
          simp [process_intent_and_perform_action, analyze_intent,
                hg, ha, hi, hdel]
      | unknown =>
        simp [process_intent_and_perform_action, analyze_intent,
              hg, ha, hi]

/-- Removing a still-unassigned path is a no-op. -/
theorem removeStagedFile_none (fs : FS) :
    removeStagedFile none fs = .ok fs := rfl

/-- Appending one element puts it last. -/
theorem last_of_append_singleton (l : List String) (a : String) :
    (l ++ [a]).getLast? = some a := by
  simp

/-- C1 counterexample: for the inbound text "hi" in a run where the
classifier replies "hello" (unknown intent), the handler produces two
replies — the received-text echo and the unsupported-intent message —
not exactly one. -/
theorem handle_text_two_replies :
    (handle_text envUnknown "hi").replies.length = 2 ∧
    (handle_text envUnknown "hi").replies.length ≠ 1 := by
  refine ⟨?_, ?_⟩ <;> decide

/-- C1 amended: for every inbound text event at least one reply is
produced — an echo of the received text followed by one or more outcome
replies, each of which is a fixed outcome message (no-events,
confirmation, unsupported-intent, or generic error) or a formatted
listing line of a returned event; never silence. -/
theorem handle_text_reply_shape (env : Env) (text : String) :
    ∃ rest, (handle_text env text).replies =
        ("Received Text: " ++ text) :: rest ∧ rest ≠ [] ∧
        ∀ m ∈ rest, m ∈ fixedOutcomeMsgs ∨
          ∃ e ∈ eventsOf env, m = fmtEvent e := by
  cases ho : (process_intent_and_perform_action env text).outcome with
  | ok u =>
    refine ⟨(process_intent_and_perform_action env text).replies,
      by simp [handle_text, ho], ?_, process_replies_allowed env text⟩
    cases u
    exact process_ok_replies_ne_nil env text ho
  | error e =>
    refine ⟨(process_intent_and_perform_action env text).replies ++
        ["An error occurred while processing your request."],
      by simp [handle_text, ho], by simp, ?_⟩
    intro m hm
    rcases List.mem_append.1 hm with h1 | h1
    · exact process_replies_allowed env text m h1
    · simp at h1
      simp [h1, fixedOutcomeMsgs]

/-- C2: whichever way the voice handling ends — success, classification
error, or adapter error — both staged files (container and waveform)
are absent from the staging store afterwards. -/
theorem handle_voice_staged_files_absent (env : Env) (v : VoiceEnv)
    (fs : FS) (h1 : fs (ogaPath v.userId) = false)
    (h2 : fs (wavPath v.userId) = false) :
    (handle_voice env v fs).fs (ogaPath v.userId) = false ∧
    (handle_voice env v fs).fs (wavPath v.userId) = false := by
  obtain ⟨fs2, hc⟩ := voiceCleanup_ok (handle_voice_body env v fs).filePath
    (handle_voice_body env v fs).wavFilePath (handle_voice_body env v fs).fs
  have hfs : (handle_voice env v fs).fs = fs2 := by
    simp [handle_voice, hc]
  rw [hfs]
  rcases handle_voice_body_shape env v fs with
    ⟨ha, hb, hval⟩ | ⟨ha, hb, hother⟩ | ⟨ha, hb⟩
  · rw [ha, hb, hval] at hc
    have heq : fs = fs2 := by
      simpa [voiceCleanup, removeStagedFile] using hc
    rw [← heq]
    exact ⟨h1, h2⟩
  · rw [ha, hb] at hc
    obtain ⟨fs1, hr1⟩ := removeStagedFile_ok (some (ogaPath v.userId))
      (handle_voice_body env v fs).fs
    have hc2 : fs1 = fs2 := by
      simpa [voiceCleanup, hr1, removeStagedFile_none] using hc
    rw [← hc2]
    refine ⟨removeStagedFile_absent _ _ _ hr1, ?_⟩
    rw [removeStagedFile_some_other _ _ _ _ hr1
      (Ne.symm (ogaPath_ne_wavPath v.userId))]
    rw [hother _ (Ne.symm (ogaPath_ne_wavPath v.userId))]
    exact h2
  · rw [ha, hb] at hc
    obtain ⟨fs1, hr1⟩ := removeStagedFile_ok (some (ogaPath v.userId))
      (handle_voice_body env v fs).fs
    have hr2 : removeStagedFile (some (wavPath v.userId)) fs1 = .ok fs2 := by
      simpa [voiceCleanup, hr1] using hc
    refine ⟨?_, removeStagedFile_absent _ _ _ hr2⟩
    exact removeStagedFile_mono _ _ _ _ hr2
      (removeStagedFile_absent _ _ _ hr1)

/-- Witness for C2: a fully successful voice run starting from an empty
staging store leaves both staged files absent. -/
theorem handle_voice_staged_files_absent_witness :
    (handle_voice envUnknown exampleVoiceEnv emptyFS).fs (ogaPath "42") =
      false ∧
    (handle_voice envUnknown exampleVoiceEnv emptyFS).fs (wavPath "42") =
      false :=
  handle_voice_staged_files_absent envUnknown exampleVoiceEnv emptyFS rfl rfl

/-- C5: an adapter-level exception inside one event's handling is caught
at that event's handler boundary, for text and voice alike: the handler
returns normally (the exception never escapes), its last reply is the
generic failure message, and the calendar calls already attempted are
left exactly as they are (no rollback, no compensation). -/
theorem adapter_errors_contained (env : Env) (text e : String)
    (v : VoiceEnv) (fs : FS) (e2 : String)
    (he : (process_intent_and_perform_action env text).outcome = .error e)
    (hv : (handle_voice_body env v fs).raised = some e2) :
    (handle_text env text).outcome = .ok () ∧
    (handle_text env text).replies.getLast? =
      some "An error occurred while processing your request." ∧
    (handle_text env text).calOps =
      (process_intent_and_perform_action env text).calOps ∧
    (handle_voice env v fs).outcome = .ok () ∧
    (handle_voice env v fs).replies.getLast? =
      some "An error occurred while processing your request." ∧
    (handle_voice env v fs).calOps =
      (handle_voice_body env v fs).calOps := by
  obtain ⟨fs2, hc⟩ := voiceCleanup_ok (handle_voice_body env v fs).filePath
    (handle_voice_body env v fs).wavFilePath (handle_voice_body env v fs).fs
  refine ⟨by simp [handle_text, he], ?_, by simp [handle_text, he],
    by simp [handle_voice, hc], ?_, by simp [handle_voice, hc]⟩
  · have hrepl : (handle_text env text).replies =
        (("Received Text: " ++ text) ::
          (process_intent_and_perform_action env text).replies) ++
        ["An error occurred while processing your request."] := by
      simp [handle_text, he]
    rw [hrepl, last_of_append_singleton]
  · have hrepl : (handle_voice env v fs).replies =
        (handle_voice_body env v fs).replies ++
        ["An error occurred while processing your request."] := by
      simp [handle_voice, hc, voiceReplies, hv]
    rw [hrepl, last_of_append_singleton]

/-- Witness for C5: a run whose calendar authentication raises is
contained in both handlers — the voice body raises too, yet both
handlers end with the generic failure reply and untouched calendar
calls. -/
theorem adapter_errors_contained_witness :
    (handle_text envAuthFail "hi").outcome = .ok () ∧
    (handle_text envAuthFail "hi").replies.getLast? =
      some "An error occurred while processing your request." ∧
    (handle_text envAuthFail "hi").calOps =
      (process_intent_and_perform_action envAuthFail "hi").calOps ∧
    (handle_voice envAuthFail exampleVoiceEnv emptyFS).outcome = .ok () ∧
    (handle_voice envAuthFail exampleVoiceEnv emptyFS).replies.getLast? =
      some "An error occurred while processing your request." ∧
    (handle_voice envAuthFail exampleVoiceEnv emptyFS).calOps =
      (handle_voice_body envAuthFail exampleVoiceEnv emptyFS).calOps :=
  adapter_errors_contained envAuthFail "hi" "auth failed"
    exampleVoiceEnv emptyFS "auth failed" rfl (by decide)

/-- C6 counterexample: for an inbound text routed as unknown intent, the
pipeline still performs a calendar-side call — it invokes
`authenticate_google_calendar()` (which may refresh and persist
credentials) before dispatching — so the list of calendar calls is not
empty. -/
theorem unknown_intent_still_authenticates :
    (process_intent_and_perform_action envUnknown "hello there").calOps =
      [CalOp.auth] ∧
    (process_intent_and_perform_action envUnknown "hello there").calOps ≠
      [] := by
  refine ⟨?_, ?_⟩ <;> decide

/-- C6 amended: when the classified intent is unknown the pipeline
replies with the fixed unsupported-intent message and invokes no list,
create, or delete calendar operation — but it does still invoke
calendar authentication before dispatching. -/
theorem unknown_intent_no_event_operation (env : Env) (text r : String)
    (hg : env.genReply (intentPrompt text) = .ok r)
    (hu : classifyIntent (pyLower (pyStrip r)) = .unknown)
    (ha : env.auth = .ok ()) :
    (process_intent_and_perform_action env text).replies =
      ["Unknown intent or action not supported."] ∧
    (process_intent_and_perform_action env text).calOps = [CalOp.auth] ∧
    CalOp.list ∉ (process_intent_and_perform_action env text).calOps ∧
    CalOp.insert ∉ (process_intent_and_perform_action env text).calOps ∧
    CalOp.delete ∉ (process_intent_and_perform_action env text).calOps := by
  have hcal : (process_intent_and_perform_action env text).calOps =
      [CalOp.auth] := by
    simp [process_intent_and_perform_action, analyze_intent, hg, ha, hu]
  have hrep : (process_intent_and_perform_action env text).replies =
      ["Unknown intent or action not supported."] := by
    simp [process_intent_and_perform_action, analyze_intent, hg, ha, hu]
  exact ⟨hrep, hcal, by simp [hcal], by simp [hcal], by simp [hcal]⟩

/-- Witness for C6 amended: the classifier reply "hello" yields the
unsupported message and only the authentication call. -/
theorem unknown_intent_no_event_operation_witness :
    (process_intent_and_perform_action envUnknown "hi").replies =
      ["Unknown intent or action not supported."] ∧
    (process_intent_and_perform_action envUnknown "hi").calOps =
      [CalOp.auth] ∧
    CalOp.list ∉ (process_intent_and_perform_action envUnknown "hi").calOps ∧
    CalOp.insert ∉
      (process_intent_and_perform_action envUnknown "hi").calOps ∧
    CalOp.delete ∉
      (process_intent_and_perform_action envUnknown "hi").calOps :=
  unknown_intent_no_event_operation envUnknown "hi" "hello" rfl
    (by decide) rfl

/-- C9: when the intent is list_events and the adapter returns a
non-empty list of N events, the pipeline sends exactly N replies, one
per event in the returned order, each formatted as the event's start
(dateTime, or the all-day date when dateTime is absent) followed by
" - " and the summary. -/
theorem list_intent_one_reply_per_event (env : Env) (text r : String)
    (es : List GCalEvent)
    (hg : env.genReply (intentPrompt text) = .ok r)
    (hr : pyLower (pyStrip r) = "list_events")
    (ha : env.auth = .ok ())
    (hl : env.listResult = .ok es)
    (hne : es ≠ []) :
    (process_intent_and_perform_action env text).replies =
      es.map fmtEvent ∧
    (process_intent_and_perform_action env text).replies.length =
      es.length ∧
    (∀ ev s, ev.startDateTime = some s →
      fmtEvent ev = s ++ " - " ++ ev.summary) ∧
    (∀ ev d, ev.startDateTime = none → ev.startDate = some d →
      fmtEvent ev = d ++ " - " ++ ev.summary) := by
  have hie : es.isEmpty = false := by
    cases es with
    | nil => exact absurd rfl hne
    | cons a l => rfl
  have hrep : (process_intent_and_perform_action env text).replies =
      es.map fmtEvent := by
    simp [process_intent_and_perform_action, analyze_intent, hg, hr, ha,
          hl, classifyIntent, hie]
  refine ⟨hrep, by simp [hrep], ?_, ?_⟩
  · intro ev s hs
    simp [fmtEvent, startDisplay, hs]
  · intro ev d hn hd
    simp [fmtEvent, startDisplay, hn, hd]

/-- Witness for C9: a run returning two events produces exactly the two
formatted listing lines, in order. -/
theorem list_intent_one_reply_per_event_witness :
    (process_intent_and_perform_action envList "calendar?").replies =
      [exampleInserted, exampleAllDay].map fmtEvent ∧
    (process_intent_and_perform_action envList "calendar?").replies.length =
      ([exampleInserted, exampleAllDay] : List GCalEvent).length ∧
    (∀ ev s, ev.startDateTime = some s →
      fmtEvent ev = s ++ " - " ++ ev.summary) ∧
    (∀ ev d, ev.startDateTime = none → ev.startDate = some d →
      fmtEvent ev = d ++ " - " ++ ev.summary) :=
  list_intent_one_reply_per_event envList "calendar?" "list_events"
    [exampleInserted, exampleAllDay] rfl (by decide) rfl rfl (by decide)

/-- C7: `list_today_events` issues the window query [now, now+24h) with
`singleEvents=True` and `orderBy=startTime`, so under the documented
list contract of the remote calendar API every returned event starts
inside the window and the result is ordered non-decreasing by start
time. -/
theorem list_today_events_window_sorted
    (serviceList : ListQuery → List GCalEvent) (now : Nat)
    (h : ListContract serviceList) :
    (todayQuery now).singleEvents = true ∧
    (todayQuery now).orderBy = "startTime" ∧
    (todayQuery now).timeMin = now ∧
    (todayQuery now).timeMax = now + daySeconds ∧
    (∀ e ∈ list_today_events serviceList now,
      now ≤ e.startTime ∧ e.startTime < now + daySeconds) ∧
    List.Chain' (fun a b => a.startTime ≤ b.startTime)
      (list_today_events serviceList now) := by
  obtain ⟨hw, hs⟩ := h (todayQuery now)
  exact ⟨rfl, rfl, rfl, rfl, fun e he => hw e he, hs⟩

/-- Witness for C7: the empty service satisfies the list contract, and
the conclusion holds for it at now = 0. -/
theorem list_today_events_window_sorted_witness :
    (todayQuery 0).singleEvents = true ∧
    (todayQuery 0).orderBy = "startTime" ∧
    (todayQuery 0).timeMin = 0 ∧
    (todayQuery 0).timeMax = 0 + daySeconds ∧
    (∀ e ∈ list_today_events (fun _ => ([] : List GCalEvent)) 0,
      0 ≤ e.startTime ∧ e.startTime < 0 + daySeconds) ∧
    List.Chain' (fun a b => a.startTime ≤ b.startTime)
      (list_today_events (fun _ => ([] : List GCalEvent)) 0) :=
  list_today_events_window_sorted (fun _ => []) 0
    (fun _ => ⟨by simp, by simp⟩)

/-- C4 counterexample: a failure of the decode step (which sits outside
the try block of `transcribe_audio`) propagates out of the adapter as a
raised exception instead of being converted to a placeholder string. -/
theorem transcribe_audio_can_raise :
    transcribe_audio (Except.error "audio decode failed" : Except String Unit)
      (fun _ => RecOutcome.recognized "hello") =
      .error "audio decode failed" := rfl

/-- C4 amended: once the decode step succeeds, the two expected
recognition exceptions are caught inside `transcribe_audio` and
converted to the two fixed placeholder strings, recognized text is
returned as-is, while unexpected recognition exceptions — and any
decode-step exception — propagate out of the adapter. -/
theorem transcribe_audio_catches_expected {α : Type}
    (record : Except String α) (recognize_google : α → RecOutcome)
    (a : α) (hr : record = .ok a) :
    (recognize_google a = .unknownValueError →
      transcribe_audio record recognize_google =
        .ok "Could not understand audio") ∧
    (recognize_google a = .requestError →
      transcribe_audio record recognize_google = .ok "API unavailable") ∧
    (∀ t, recognize_google a = .recognized t →
      transcribe_audio record recognize_google = .ok t) ∧
    (∀ e, recognize_google a = .otherError e →
      transcribe_audio record recognize_google = .error e) ∧
    (∀ (d : String) (rg : α → RecOutcome),
      transcribe_audio (Except.error d : Except String α) rg = .error d) := by
  subst hr
  refine ⟨?_, ?_, ?_, ?_, ?_⟩ <;> intros <;> simp [transcribe_audio, *]

/-- Witness for C4 amended: an unrecognizable-audio failure becomes the
fixed placeholder text. -/
theorem transcribe_audio_catches_expected_witness :
    transcribe_audio (Except.ok () : Except String Unit)
      (fun _ => RecOutcome.unknownValueError) =
      .ok "Could not understand audio" :=
  (transcribe_audio_catches_expected (Except.ok ())
    (fun _ => RecOutcome.unknownValueError) () rfl).1 rfl

/-- C8 counterexample: `create_event` has no return statement — at a
concrete input its return value is Python's `None`, not the created
CalendarEvent record the service handed back. -/
theorem create_event_returns_none :
    (create_event (fun _ => exampleInserted) "Meeting with Team"
      "2026-10-12T10:00:00Z" "2026-10-12T11:00:00Z" none).returned =
      none ∧
    (create_event (fun _ => exampleInserted) "Meeting with Team"
      "2026-10-12T10:00:00Z" "2026-10-12T11:00:00Z" none).returned ≠
      some (create_event (fun _ => exampleInserted) "Meeting with Team"
        "2026-10-12T10:00:00Z" "2026-10-12T11:00:00Z" none).inserted := by
  refine ⟨rfl, ?_⟩
  decide

/-- C8 amended: `create_event` builds a request body whose start and end
carry UTC timezone fields and whose attendee list is empty when no
attendees are supplied, issues the insert with that body, and returns
no value (the created record is only logged). -/
theorem create_event_body_and_return (insert : EventBody → GCalEvent)
    (summary start_time end_time : String)
    (attendees : Option (List String)) :
    (create_event insert summary start_time end_time
      attendees).requestBody.start.timeZone = "UTC" ∧
    (create_event insert summary start_time end_time
      attendees).requestBody.«end».timeZone = "UTC" ∧
    (create_event insert summary start_time end_time
      attendees).requestBody.start.dateTime = start_time ∧
    (create_event insert summary start_time end_time
      attendees).requestBody.«end».dateTime = end_time ∧
    (create_event insert summary start_time end_time
      attendees).requestBody.summary = summary ∧
    (attendees = none →
      (create_event insert summary start_time end_time
        attendees).requestBody.attendees = []) ∧
    (create_event insert summary start_time end_time attendees).inserted =
      insert (create_event insert summary start_time end_time
        attendees).requestBody ∧
    (create_event insert summary start_time end_time attendees).returned =
      none := by
  refine ⟨rfl, rfl, rfl, rfl, rfl, ?_, rfl, rfl⟩
  intro h
  subst h
  rfl

/-- Witness for C8 amended: with no attendees supplied the request body
carries an empty attendee list. -/
theorem create_event_body_and_return_witness :
    (create_event (fun _ => exampleInserted) "Meeting with Team"
      "2026-10-12T10:00:00Z" "2026-10-12T11:00:00Z"
      none).requestBody.attendees = [] :=
  (create_event_body_and_return (fun _ => exampleInserted)
    "Meeting with Team" "2026-10-12T10:00:00Z" "2026-10-12T11:00:00Z"
    none).2.2.2.2.2.1 rfl

/-- C10: the finally-block cleanup is guarded and idempotent — a guarded
removal never raises, re-running the cleanup on its own result changes
nothing, and on every path of `handle_voice` (success and error-reply
alike) the cleanup runs, succeeds, and yields the handler's final
store. -/
theorem cleanup_guarded_idempotent_all_paths (env : Env) (v : VoiceEnv)
    (fs g : FS) (p fp wp : Option String) :
    (∃ g2, removeStagedFile p g = .ok g2) ∧
    (∀ g2, voiceCleanup fp wp g = .ok g2 →
      voiceCleanup fp wp g2 = .ok g2) ∧
    (∃ fs2, voiceCleanup (handle_voice_body env v fs).filePath
        (handle_voice_body env v fs).wavFilePath
        (handle_voice_body env v fs).fs = .ok fs2 ∧
      (handle_voice env v fs).fs = fs2 ∧
      (handle_voice env v fs).outcome = .ok ()) := by
  refine ⟨removeStagedFile_ok p g, ?_, ?_⟩
  · intro g2 hg2
    obtain ⟨g1, hr1⟩ := removeStagedFile_ok fp g
    have hr2 : removeStagedFile wp g1 = .ok g2 := by
      simpa [voiceCleanup, hr1] using hg2
    have hfp : removeStagedFile fp g2 = .ok g2 := by
      match fp with
      | none => rfl
      | some path =>
        have hp1 : g1 path = false := removeStagedFile_absent _ _ _ hr1
        exact removeStagedFile_of_absent _ _
          (removeStagedFile_mono _ _ _ _ hr2 hp1)
    have hwp : removeStagedFile wp g2 = .ok g2 := by
      match wp with
      | none => rfl
      | some path =>
        exact removeStagedFile_of_absent _ _
          (removeStagedFile_absent _ _ _ hr2)
    simp [voiceCleanup, hfp, hwp]
  · obtain ⟨fs2, hc⟩ := voiceCleanup_ok (handle_voice_body env v fs).filePath
      (handle_voice_body env v fs).wavFilePath
      (handle_voice_body env v fs).fs
    exact ⟨fs2, hc, by simp [handle_voice, hc], by simp [handle_voice, hc]⟩

/-- Witness for C10: the guarantee instantiated at a concrete successful
voice run over the empty store. -/
theorem cleanup_guarded_idempotent_all_paths_witness :
    (∃ g2, removeStagedFile (some (ogaPath "42")) emptyFS = .ok g2) ∧
    (∀ g2, voiceCleanup (some (ogaPath "42")) (some (wavPath "42"))
        emptyFS = .ok g2 →
      voiceCleanup (some (ogaPath "42")) (some (wavPath "42")) g2 =
        .ok g2) ∧
    (∃ fs2, voiceCleanup
        (handle_voice_body envList exampleVoiceEnv emptyFS).filePath
        (handle_voice_body envList exampleVoiceEnv emptyFS).wavFilePath
        (handle_voice_body envList exampleVoiceEnv emptyFS).fs = .ok fs2 ∧
      (handle_voice envList exampleVoiceEnv emptyFS).fs = fs2 ∧
      (handle_voice envList exampleVoiceEnv emptyFS).outcome = .ok ()) :=
  cleanup_guarded_idempotent_all_paths envList exampleVoiceEnv emptyFS
    emptyFS (some (ogaPath "42")) (some (ogaPath "42"))
    (some (wavPath "42"))

end CalendarBot
